import Mathlib

/-!
Shallow embedding of the XGDuckDB online cardinality-learning subsystem.

The definitions below translate the C++ sources of the repository:
* `RLBoostingModel` (src/unnamed/part_007, current version, together with
  src/src/include/duckdb/main/rl_boosting_model.hpp),
* `RLFeatureCollector::AddJoinFeaturesByRelationSet`
  (src/src/optimizer/rl_feature_collector.cpp),
* `RLCardinalityOptimizer::ApplyToOperator` (src/unnamed/part_004),
* `RLModelInterface::GetCardinalityEstimate` (src/src/main/rl_model_interface.cpp).

Calls into the external XGBoost library (booster creation, cloning, training
iterations, dense inference) and the C runtime (`std::exp`, `snprintf`,
`std::to_string` of doubles) are modelled by oracle parameters: the embedding
is faithful to the control flow of the C++ code for every possible outcome of
those external calls.  Doubles that only flow through clamps and comparisons
are modelled as rationals; `idx_t` counters are modelled as `Nat`.
-/

namespace XGDuckDB

/-- `RLBoostingModel::FEATURE_VECTOR_SIZE` (rl_boosting_model.hpp, 80, must
match `RLModelInterface`). -/
def FEATURE_VECTOR_SIZE : Nat := 80

/-- `BoosterHandle` is an opaque pointer in the C++ code; we model handles by
their identity. -/
abbrev BoosterHandle := Nat

/-- `RLTrainingSample` (rl_training_buffer.hpp): feature vector, actual and
predicted cardinalities, q-error. -/
structure RLTrainingSample where
  features : List ℚ
  actual_cardinality : Nat
  predicted_cardinality : Nat
  q_error : ℚ
deriving Repr, DecidableEq

/-- The mutable state of the `RLBoostingModel` singleton
(rl_boosting_model.hpp data members; the hyperparameters that the claims
depend on are kept, the remaining ones do not influence any modelled
control flow). -/
structure ModelState where
  initialized : Bool
  active_booster : Option BoosterHandle
  training_booster : Option BoosterHandle
  num_trees : Nat
  total_updates : Nat
  training_num_trees : Nat
  training_total_updates : Nat
  training_update_calls : Nat
  trees_per_update : Nat
  max_total_trees : Nat
deriving Repr, DecidableEq

/-- `RLBoostingModel::GetNumTrees` — reads the published atomic `num_trees`. -/
def GetNumTrees (st : ModelState) : Nat :=
  st.num_trees

/-- Oracle for the external calls made by `RLBoostingModel::Predict`:
the (never set) `shutting_down` guard, the `snprintf` encoding of the array
interface, the result of `XGBoosterPredictFromDense` (`none` models a nonzero
return code, a null result pointer or a bad output shape), and `std::exp`. -/
structure PredictOracle where
  shutting_down : Bool
  encode_ok : Bool
  infer : Option ℚ
  expFn : ℚ → ℚ

/-- `RLBoostingModel::Predict` (part_007 lines 296-376).  Returns the
predicted cardinality together with the (unchanged) model state: the C++
function writes only thread-local scratch buffers, never the model state. -/
def Predict (st : ModelState) (o : PredictOracle) (features : List ℚ) :
    ℚ × ModelState :=
  if o.shutting_down then (0, st)
  else if features.length ≠ FEATURE_VECTOR_SIZE then (0, st)
  else if ¬ st.initialized ∨ st.active_booster = none ∨ st.num_trees ≤ 1 then (0, st)
  else if ¬ o.encode_ok then (0, st)
  else
    match o.infer with
    | none => (0, st)
    | some raw =>
      let log_cardinality := max 0 raw
      let cardinality := o.expFn log_cardinality
      let cardinality := if cardinality < 1 then 1 else cardinality
      (cardinality, st)

/-- Log lines emitted through `Printer::Print` by the training path, in
structured form; `renderLogEvent` gives the exact strings the C++ code
builds. -/
inductive LogEvent where
  | createDMatrixFailed (msg : String)
  | setLabelsFailed (msg : String)
  | trainIterFailed (msg : String)
  | updateSummary (update_no nsamples total_trees : Nat) (avg_q : String)
deriving Repr, DecidableEq

/-- The exact strings built by the C++ code for each log event
(part_007 lines 273, 281, 476, 525-528). -/
def renderLogEvent : LogEvent → String
  | .createDMatrixFailed msg => "[RL BOOSTING ERROR] Failed to create DMatrix: " ++ msg ++ "\n"
  | .setLabelsFailed msg => "[RL BOOSTING ERROR] Failed to set labels: " ++ msg ++ "\n"
  | .trainIterFailed msg => "[RL BOOSTING ERROR] Training iteration failed: " ++ msg ++ "\n"
  | .updateSummary u n t q =>
      "[RL BOOSTING] Incremental update #" ++ toString u ++ ": trained on " ++
        toString n ++ " samples, total trees=" ++ toString t ++
        ", avg Q-error=" ++ q ++ "\n"

/-- Recognizer for the incremental-update summary line. -/
def isUpdateSummary : LogEvent → Bool
  | .updateSummary _ _ _ _ => true
  | _ => false

/-- Oracle for the external calls made by the training path:
`CloneBooster` (serialize / create / unserialize, `none` on any failure),
the two failure points of `CreateDMatrix`, the per-iteration outcome of
`XGBoosterUpdateOneIter` (indexed by the iteration number passed to the
library), `XGBGetLastError`, `std::log`, `std::to_string(double)`, and the
value of `(idx_t)EnvInt("RL_SWAP_EVERY_N_UPDATES", 5)`. -/
structure TrainOracle where
  clone : BoosterHandle → Option BoosterHandle
  dmatrix_create_ok : Bool
  dmatrix_label_ok : Bool
  iter_ok : Nat → Bool
  last_error : String
  logFn : ℚ → ℚ
  fmtDouble : ℚ → String
  swap_every : Nat

/-- `RLBoostingModel::CloneBooster` (part_007 lines 196-220): null source
gives null; any library failure gives null; otherwise a fresh handle. -/
def CloneBooster (o : TrainOracle) : Option BoosterHandle → Option BoosterHandle
  | none => none
  | some b => o.clone b

/-- `RLBoostingModel::EnsureTrainingBooster` (part_007 lines 222-235): if no
shadow exists, clone the active booster (the clone may fail) and copy the
published counters into the shadow counters — the counters are copied even
when the clone failed, exactly as in the source. -/
def EnsureTrainingBooster (st : ModelState) (o : TrainOracle) : ModelState :=
  if st.training_booster.isSome then st
  else
    { st with
      training_booster := CloneBooster o st.active_booster,
      training_num_trees := st.num_trees,
      training_total_updates := st.total_updates }

/-- The DMatrix built by `RLBoostingModel::CreateDMatrix`: row count plus the
labels `log(max(1, actual))`. -/
structure DMatrix where
  rows : Nat
  labels : List ℚ
deriving Repr

/-- `RLBoostingModel::CreateDMatrix` (part_007 lines 237-288): null on empty
input; logs and returns null when matrix creation or label attachment fails. -/
def CreateDMatrix (o : TrainOracle) (samples : List RLTrainingSample) :
    Option DMatrix × List LogEvent :=
  if samples.isEmpty then (none, [])
  else if ¬ o.dmatrix_create_ok then (none, [.createDMatrixFailed o.last_error])
  else if ¬ o.dmatrix_label_ok then (none, [.setLabelsFailed o.last_error])
  else
    (some { rows := samples.length,
            labels := samples.map fun s => o.logFn (max 1 (s.actual_cardinality : ℚ)) },
     [])

/-- The training loop of `UpdateIncremental` (part_007 lines 472-482): run
`XGBoosterUpdateOneIter` for consecutive iteration numbers starting at
`base`, stopping (with one error line) at the first failure.  Returns the
number of successful iterations (`trees_added`) and the emitted log. -/
def runTrainingIters (o : TrainOracle) (base : Nat) : Nat → Nat × List LogEvent
  | 0 => (0, [])
  | r + 1 =>
    if o.iter_ok base then
      let rest := runTrainingIters o (base + 1) r
      (rest.1 + 1, rest.2)
    else
      (0, [.trainIterFailed o.last_error])

/-- The tree-budget check and training loop of `UpdateIncremental`
(part_007 lines 463-487): computes `new_num_trees`, `new_total_updates` and
the error log of the loop from the shadow counters. -/
def trainStep (st1 : ModelState) (o : TrainOracle) : Nat × Nat × List LogEvent :=
  let n0 := st1.training_num_trees
  let u0 := st1.training_total_updates
  if n0 ≥ st1.max_total_trees then
    (n0, u0, ([] : List LogEvent))
  else
    let remaining := st1.max_total_trees - n0
    let trees_to_add := min remaining st1.trees_per_update
    if trees_to_add > 0 then
      let res := runTrainingIters o (u0 * st1.trees_per_update) trees_to_add
      (n0 + res.1, if res.1 > 0 then u0 + 1 else u0, res.2)
    else
      (n0, u0, [])

/-- The body of `UpdateIncremental` under the train lock plus the final
summary print (part_007 lines 455-528), starting from the state left by
`EnsureTrainingBooster`.  If the shadow booster is missing the function
returns with no summary line; otherwise it runs `trainStep`, commits the
shadow counters, possibly publishes the shadow (swap policy), and always
emits the summary line with the local `new_total_updates` / `new_num_trees`
values. -/
def trainSection (st1 : ModelState) (o : TrainOracle) (nsamples : Nat)
    (avg_q : ℚ) : ModelState × List LogEvent :=
  match st1.training_booster with
  | none => (st1, [])
  | some _ =>
    let step := trainStep st1 o
    let new_num_trees := step.1
    let new_total_updates := step.2.1
    let st2 := { st1 with
                 training_num_trees := new_num_trees,
                 training_total_updates := new_total_updates,
                 training_update_calls := st1.training_update_calls + 1 }
    let st3 :=
      if o.swap_every > 0 ∧ st2.training_update_calls % o.swap_every = 0 then
        { st2 with
          active_booster := st2.training_booster,
          num_trees := st2.training_num_trees,
          total_updates := st2.training_total_updates,
          training_booster := none }
      else st2
    (st3, step.2.2 ++
      [.updateSummary new_total_updates nsamples new_num_trees (o.fmtDouble avg_q)])

/-- `RLBoostingModel::UpdateIncremental` (part_007 lines 433-529).  Returns
the new model state and the list of log lines printed by the call. -/
def UpdateIncremental (st : ModelState) (o : TrainOracle)
    (recent_samples : List RLTrainingSample) : ModelState × List LogEvent :=
  if st.initialized = false ∨ st.active_booster = none then (st, [])
  else if recent_samples.length < 10 then (st, [])
  else
    match CreateDMatrix o recent_samples with
    | (none, logs) => (st, logs)
    | (some _, logs0) =>
      let st1 := EnsureTrainingBooster st o
      let avg_q := (recent_samples.map (fun s => s.q_error)).sum /
        (recent_samples.length : ℚ)
      let res := trainSection st1 o recent_samples.length avg_q
      (res.1, logs0 ++ res.2)

/-- Recognizer for the training-iteration error line. -/
def isTrainIterFailed : LogEvent → Bool
  | .trainIterFailed _ => true
  | _ => false

/-- Insertion into a mutex-guarded `std::map` / `unordered_map`, modelled as
an association list: `m[k] = v` overwrites the entry for `k` if present and
appends a new entry otherwise. -/
def mapInsert {κ β : Type} [DecidableEq κ] (m : List (κ × β)) (k : κ) (v : β) :
    List (κ × β) :=
  if m.any fun p => p.1 = k then
    m.map fun p => if p.1 = k then (k, v) else p
  else m ++ [(k, v)]

/-- `JoinFeatures` (rl_feature_collector.hpp): only the
`estimated_cardinality` field (a double, cast to `idx_t` when used as a map
key) influences the collector code modelled here; the remaining feature
fields are payload that the modelled control flow never inspects. -/
structure JoinFeatures where
  estimated_cardinality : ℚ
deriving Repr, DecidableEq

/-- The two join-feature maps of the `RLFeatureCollector` singleton touched
by `AddJoinFeaturesByRelationSet`
(src/src/optimizer/rl_feature_collector.cpp). -/
structure RLFeatureCollector where
  join_features_by_relation_set : List (String × JoinFeatures)
  join_features_by_estimate : List (Nat × JoinFeatures)
deriving Repr

/-- `RLFeatureCollector::AddJoinFeaturesByRelationSet`
(src/src/optimizer/rl_feature_collector.cpp lines 37-52): under the
collector mutex, if the relation-set map holds more than 500 entries both
join maps are cleared in full, then the entry is inserted (and mirrored into
the by-estimate map when `estimated_cardinality > 0`).  The returned flag
records whether the wholesale clear fired. -/
def AddJoinFeaturesByRelationSet (c : RLFeatureCollector) (relation_set : String)
    (features : JoinFeatures) : RLFeatureCollector × Bool :=
  let pair :=
    if c.join_features_by_relation_set.length > 500 then
      ({ c with join_features_by_relation_set := [], join_features_by_estimate := [] }, true)
    else (c, false)
  let c1 := pair.1
  let c2 := { c1 with
              join_features_by_relation_set :=
                mapInsert c1.join_features_by_relation_set relation_set features }
  let c3 :=
    if features.estimated_cardinality > 0 then
      { c2 with
        join_features_by_estimate :=
          mapInsert c2.join_features_by_estimate
            features.estimated_cardinality.floor.toNat features }
    else c2
  (c3, pair.2)

/-- Fold a sequence of relation-set insertions through the collector,
counting how many of them triggered the wholesale clear. -/
def runRelationSetInserts (c : RLFeatureCollector) (keys : List String)
    (f : JoinFeatures) : RLFeatureCollector × Nat :=
  keys.foldl
    (fun acc k =>
      let r := AddJoinFeaturesByRelationSet acc.1 k f
      (r.1, acc.2 + if r.2 then 1 else 0))
    (c, 0)

/-- The model state after a call to `UpdateIncremental`. -/
def updatedState (st : ModelState) (o : TrainOracle)
    (samples : List RLTrainingSample) : ModelState :=
  (UpdateIncremental st o samples).1

/-- The number of trees a call to `UpdateIncremental` added to the shadow
booster, read off the shadow counter `training_num_trees`. -/
def treesAdded (st : ModelState) (o : TrainOracle)
    (samples : List RLTrainingSample) : Nat :=
  (updatedState st o samples).training_num_trees -
    (EnsureTrainingBooster st o).training_num_trees

/-- The keys currently stored in the relation-set join-feature map. -/
def keysOf (c : RLFeatureCollector) : List String :=
  c.join_features_by_relation_set.map Prod.fst

/-- One step of the size/clear-count recurrence followed by the relation-set
map under insertions of fresh keys: a map larger than 500 is cleared (count
bumped) and receives the single new entry, otherwise it grows by one. -/
def simStep (p : Nat × Nat) : Nat × Nat :=
  if p.1 > 500 then (1, p.2 + 1) else (p.1 + 1, p.2)

/-- Iterate `simStep`. -/
def simRun : Nat → Nat × Nat → Nat × Nat
  | 0, p => p
  | n + 1, p => simRun n (simStep p)

/-- 600 pairwise-distinct relation-set fingerprints. -/
def relKeys600 : List String :=
  (List.range 600).map (fun i => String.mk (List.replicate (i + 1) 'a'))

/-- The cardinality-estimate fields of `LogicalOperator` touched by
`RLCardinalityOptimizer::ApplyToOperator` (part_004). -/
structure LogicalOperator where
  estimated_cardinality : Nat
  has_estimated_cardinality : Bool
  duckdb_estimated_cardinality : Nat
  has_duckdb_estimated_cardinality : Bool
deriving Repr, DecidableEq

/-- `RLCardinalityOptimizer::ApplyToOperator` (part_004 lines 24-44).
`rl_pred` is the value returned by `PredictPlanningCardinality(features)`
(declared in rl_model_interface.hpp; `idx_t`, 0 meaning "no prediction").
The fallback is `features.estimated_cardinality`, which
`RLModelInterface::ExtractFeatures` sets to `op.estimated_cardinality`
(rl_model_interface.cpp line 270). -/
def ApplyToOperator (op : LogicalOperator) (rl_pred : Nat) : LogicalOperator :=
  let op1 :=
    if ¬ op.has_duckdb_estimated_cardinality ∧ op.has_estimated_cardinality then
      { op with
        duckdb_estimated_cardinality := op.estimated_cardinality,
        has_duckdb_estimated_cardinality := true }
    else op
  let fallback := op1.estimated_cardinality
  let effective := if rl_pred > 0 then rl_pred else fallback
  { op1 with
    estimated_cardinality := max effective 1,
    has_estimated_cardinality := true }

/-- The fields of `OperatorFeatures` (rl_model_interface.hpp) read by
`RLModelInterface::GetCardinalityEstimate`; the remaining fields are payload
for the feature vector and never influence the modelled control flow. -/
structure OperatorFeatures where
  operator_type : String
  estimated_cardinality : Nat
  table_name : String
  filter_types : List String
  comparison_types : List String
  join_type : String
  join_relation_set : String
  comparison_type_join : String
  num_group_by_columns : Nat
  num_aggregate_functions : Nat
  num_grouping_sets : Nat
deriving Repr, DecidableEq

/-- `static constexpr bool PHYSICAL_RL_ENABLED = true`
(rl_model_interface.cpp line 35). -/
def PHYSICAL_RL_ENABLED : Bool := true

/-- `MAX_PHYSICAL_PREDICTIONS` (rl_model_interface.cpp line 565). -/
def MAX_PHYSICAL_PREDICTIONS : Nat := 300

/-- The thread-local state of `GetCardinalityEstimate`
(rl_model_interface.cpp lines 566-569): per-thread prediction cache, the
query id it was built for, the per-query prediction count and the cap-logged
flag. -/
structure InterfaceThreadState where
  physical_prediction_cache : List (String × Nat)
  cached_query_id : Option Nat
  physical_prediction_count : Nat
  physical_cap_logged : Bool
deriving Repr, DecidableEq

/-- The operator-specific cache key built by `GetCardinalityEstimate`
(rl_model_interface.cpp lines 606-640): kind, then kind-specific
discriminants joined with the delimiter bar. -/
def cacheKey (f : OperatorFeatures) : String :=
  let key := f.operator_type ++ "|"
  if f.table_name ≠ "" then
    key ++ f.table_name ++ "|" ++ toString f.filter_types.length ++ "|" ++
      String.join (f.comparison_types.map (fun cmp => cmp ++ ","))
  else if f.join_type ≠ "" then
    key ++ f.join_type ++ "|" ++ f.join_relation_set ++ "|" ++ f.comparison_type_join
  else if f.filter_types ≠ [] then
    key ++ toString f.filter_types.length ++ "|" ++
      String.join (f.comparison_types.map (fun cmp => cmp ++ ","))
  else if f.num_group_by_columns > 0 ∨ f.num_aggregate_functions > 0 then
    key ++ toString f.num_group_by_columns ++ "|" ++
      toString f.num_aggregate_functions ++ "|" ++ toString f.num_grouping_sets
  else key

/-- Association-list lookup, modelling `unordered_map::find`. -/
def mapLookup {κ β : Type} [DecidableEq κ] : List (κ × β) → κ → Option β
  | [], _ => none
  | p :: rest, k => if p.1 = k then some p.2 else mapLookup rest k

/-- `RLModelInterface::GetCardinalityEstimate`
(rl_model_interface.cpp lines 559-666).  `en` is the interface's `enabled`
flag (set to `true` by the constructor, line 37, and never written again);
`query_id` is `context.transaction.GetActiveQuery()` (`none` when the call
throws, modelling `DConstants::INVALID_INDEX`); `model_prediction` is the
double returned by `RLBoostingModel::Get().Predict(FeaturesToVector(f))`.
Returns the estimate, the new thread-local state, and whether the model was
consulted. -/
def GetCardinalityEstimate (en : Bool) (ts : InterfaceThreadState)
    (query_id : Option Nat) (f : OperatorFeatures) (model_prediction : ℚ) :
    Nat × InterfaceThreadState × Bool :=
  if ¬ (en && PHYSICAL_RL_ENABLED) then (0, ts, false)
  else
    let ts1 :=
      if ts.cached_query_id ≠ query_id then
        { physical_prediction_cache := [], cached_query_id := query_id,
          physical_prediction_count := 0, physical_cap_logged := false }
      else ts
    if ¬ f.join_type ≠ "" then (f.estimated_cardinality, ts1, false)
    else if ts1.physical_prediction_count ≥ MAX_PHYSICAL_PREDICTIONS then
      (f.estimated_cardinality, { ts1 with physical_cap_logged := true }, false)
    else
      match mapLookup ts1.physical_prediction_cache (cacheKey f) with
      | some cached => (cached, ts1, false)
      | none =>
        if model_prediction ≤ 0 then (f.estimated_cardinality, ts1, true)
        else
          let result := model_prediction.floor.toNat
          (result,
           { ts1 with
             physical_prediction_cache :=
               mapInsert ts1.physical_prediction_cache (cacheKey f) result,
             physical_prediction_count := ts1.physical_prediction_count + 1 },
           true)

/-- The training loop never adds more trees than it was asked to. -/
theorem runTrainingIters_fst_le (o : TrainOracle) (base r : Nat) :
    (runTrainingIters o base r).1 ≤ r := by
  induction r generalizing base with
  | zero => simp [runTrainingIters]
  | succ n ih =>
    unfold runTrainingIters
    split
    · simpa using Nat.succ_le_succ (ih (base + 1))
    · simp

/-- If the first `k` library iterations succeed and the `k`-th fails, the
loop adds exactly `k` trees and logs exactly one error line. -/
theorem runTrainingIters_first_fail (o : TrainOracle) (k : Nat) :
    ∀ base r, k < r →
    (∀ i, i < k → o.iter_ok (base + i) = true) →
    o.iter_ok (base + k) = false →
    runTrainingIters o base r = (k, [.trainIterFailed o.last_error]) := by
  induction k with
  | zero =>
    intro base r hr hok hfail
    match r, hr with
    | n + 1, _ =>
      unfold runTrainingIters
      rw [if_neg (by simpa using hfail)]
  | succ m ih =>
    intro base r hr hok hfail
    match r, hr with
    | n + 1, hr =>
      unfold runTrainingIters
      rw [if_pos (by simpa using hok 0 (Nat.succ_pos m))]
      rw [ih (base + 1) n (Nat.lt_of_succ_lt_succ hr)
        (fun i hi => by
          have := hok (i + 1) (Nat.succ_lt_succ hi)
          simpa [Nat.add_assoc, Nat.add_comm 1 i] using this)
        (by simpa [Nat.add_assoc, Nat.add_comm 1 m] using hfail)]

/-- The training loop never emits a summary line. -/
theorem runTrainingIters_no_summary (o : TrainOracle) (base r : Nat) :
    ((runTrainingIters o base r).2.countP (fun e => isUpdateSummary e)) = 0 := by
  induction r generalizing base with
  | zero => simp [runTrainingIters]
  | succ n ih =>
    unfold runTrainingIters
    split
    · simpa using ih (base + 1)
    · simp [isUpdateSummary]

/-- `trainStep` never decreases the shadow tree counter and adds at most
`trees_per_update` trees. -/
theorem trainStep_bounds (st1 : ModelState) (o : TrainOracle) :
    st1.training_num_trees ≤ (trainStep st1 o).1 ∧
    (trainStep st1 o).1 ≤ st1.training_num_trees + st1.trees_per_update := by
  unfold trainStep
  dsimp only
  split
  · simp
  · split
    · have hle := runTrainingIters_fst_le o
        (st1.training_total_updates * st1.trees_per_update)
        (min (st1.max_total_trees - st1.training_num_trees) st1.trees_per_update)
      have hmin := Nat.min_le_right (st1.max_total_trees - st1.training_num_trees)
        st1.trees_per_update
      constructor <;> simp <;> omega
    · simp

/-- The error log produced by `trainStep` contains no summary line. -/
theorem trainStep_no_summary (st1 : ModelState) (o : TrainOracle) :
    ((trainStep st1 o).2.2.countP (fun e => isUpdateSummary e)) = 0 := by
  unfold trainStep
  dsimp only
  split
  · simp
  · split
    · simpa using runTrainingIters_no_summary o
        (st1.training_total_updates * st1.trees_per_update)
        (min (st1.max_total_trees - st1.training_num_trees) st1.trees_per_update)
    · simp

/-- When the tree budget is open and the library fails at the `k`-th of the
requested iterations (all earlier ones succeeding), `trainStep` commits
exactly the `k` pre-failure trees, bumps the update counter iff `k > 0`,
and logs exactly one error line. -/
theorem trainStep_fail (st1 : ModelState) (o : TrainOracle) (k : Nat)
    (hlt : st1.training_num_trees < st1.max_total_trees)
    (hk : k < min (st1.max_total_trees - st1.training_num_trees) st1.trees_per_update)
    (hok : ∀ i, i < k →
      o.iter_ok (st1.training_total_updates * st1.trees_per_update + i) = true)
    (hfail :
      o.iter_ok (st1.training_total_updates * st1.trees_per_update + k) = false) :
    trainStep st1 o =
      (st1.training_num_trees + k,
       (if 0 < k then st1.training_total_updates + 1 else st1.training_total_updates),
       [.trainIterFailed o.last_error]) := by
  unfold trainStep
  dsimp only
  rw [if_neg (not_le.mpr hlt)]
  rw [if_pos (Nat.lt_of_le_of_lt (Nat.zero_le k) hk)]
  rw [runTrainingIters_first_fail o k
    (st1.training_total_updates * st1.trees_per_update)
    (min (st1.max_total_trees - st1.training_num_trees) st1.trees_per_update)
    hk hok hfail]

/-- When the preconditions of `UpdateIncremental` hold (initialized model,
non-null active booster, at least 10 samples, successful DMatrix creation),
the call reduces to the train-lock section run on the state left by
`EnsureTrainingBooster`. -/
theorem update_incremental_run (st : ModelState) (o : TrainOracle)
    (samples : List RLTrainingSample)
    (hinit : st.initialized = true) (hact : st.active_booster.isSome)
    (hn : 10 ≤ samples.length)
    (hc : o.dmatrix_create_ok = true) (hl : o.dmatrix_label_ok = true) :
    UpdateIncremental st o samples =
      trainSection (EnsureTrainingBooster st o) o samples.length
        ((samples.map (fun s => s.q_error)).sum / (samples.length : ℚ)) := by
  have hne : samples.isEmpty = false := by
    cases samples with
    | nil => simp at hn
    | cons a l => rfl
  have hnone : ¬ (st.initialized = false ∨ st.active_booster = none) := by
    rintro (h | h)
    · rw [hinit] at h; cases h
    · rw [h] at hact; cases hact
  unfold UpdateIncremental
  rw [if_neg hnone, if_neg (by omega)]
  simp only [CreateDMatrix, hne, Bool.false_eq_true, if_false, hc, hl,
    not_true, if_neg, if_false]
  simp

/-- `EnsureTrainingBooster` changes only the shadow fields. -/
theorem ensure_fields (st : ModelState) (o : TrainOracle) :
    (EnsureTrainingBooster st o).num_trees = st.num_trees ∧
    (EnsureTrainingBooster st o).total_updates = st.total_updates ∧
    (EnsureTrainingBooster st o).training_update_calls = st.training_update_calls ∧
    (EnsureTrainingBooster st o).trees_per_update = st.trees_per_update ∧
    (EnsureTrainingBooster st o).max_total_trees = st.max_total_trees ∧
    (EnsureTrainingBooster st o).initialized = st.initialized ∧
    (EnsureTrainingBooster st o).active_booster = st.active_booster := by
  unfold EnsureTrainingBooster
  split <;> simp

/-- Inserting a key that is not present appends the new entry. -/
theorem mapInsert_fresh {β : Type} (m : List (String × β)) (k : String) (v : β)
    (hk : k ∉ m.map Prod.fst) : mapInsert m k v = m ++ [(k, v)] := by
  have h' : ¬ ((m.any fun p => decide (p.1 = k)) = true) := by
    rw [List.any_eq_true]
    rintro ⟨p, hp, hpk⟩
    rw [decide_eq_true_eq] at hpk
    exact hk (hpk ▸ List.mem_map_of_mem Prod.fst hp)
  unfold mapInsert
  rw [if_neg h']

/-- When the relation-set map already holds more than 500 entries, the
insertion clears it in full: the resulting map is exactly the one fresh
entry, and the clear fired. -/
theorem add_overflow (c : RLFeatureCollector) (k : String) (f : JoinFeatures)
    (h : c.join_features_by_relation_set.length > 500) :
    (AddJoinFeaturesByRelationSet c k f).1.join_features_by_relation_set = [(k, f)] ∧
    (AddJoinFeaturesByRelationSet c k f).2 = true := by
  unfold AddJoinFeaturesByRelationSet
  rw [if_pos h]
  dsimp only
  constructor
  · split <;> simp [mapInsert]
  · rfl

/-- Below the bound, inserting a fresh key appends it without clearing. -/
theorem add_fresh_small (c : RLFeatureCollector) (k : String) (f : JoinFeatures)
    (h : ¬ c.join_features_by_relation_set.length > 500) (hk : k ∉ keysOf c) :
    (AddJoinFeaturesByRelationSet c k f).1.join_features_by_relation_set =
      c.join_features_by_relation_set ++ [(k, f)] ∧
    (AddJoinFeaturesByRelationSet c k f).2 = false := by
  unfold AddJoinFeaturesByRelationSet
  rw [if_neg h]
  dsimp only
  rw [mapInsert_fresh _ _ _ hk]
  constructor
  · split <;> rfl
  · rfl

/-- A sequence of insertions of pairwise-distinct fresh keys drives the
relation-set map exactly along the `simStep` recurrence (size and number of
wholesale clears). -/
theorem run_inserts_sim (f : JoinFeatures) (ks : List String) :
    ∀ (c : RLFeatureCollector) (n0 : Nat), ks.Nodup →
    (∀ k ∈ ks, k ∉ keysOf c) →
    (((ks.foldl
        (fun acc k =>
          let r := AddJoinFeaturesByRelationSet acc.1 k f
          (r.1, acc.2 + if r.2 then 1 else 0))
        (c, n0)).1.join_features_by_relation_set.length,
      (ks.foldl
        (fun acc k =>
          let r := AddJoinFeaturesByRelationSet acc.1 k f
          (r.1, acc.2 + if r.2 then 1 else 0))
        (c, n0)).2)) =
      simRun ks.length (c.join_features_by_relation_set.length, n0) := by
  induction ks with
  | nil => intro c n0 _ _; rfl
  | cons k rest ih =>
    intro c n0 hnd hfresh
    have hndr := (List.nodup_cons.mp hnd).2
    have hknotr := (List.nodup_cons.mp hnd).1
    have hkf : k ∉ keysOf c := hfresh k (List.mem_cons_self k rest)
    simp only [List.foldl_cons, List.length_cons, simRun]
    by_cases h : c.join_features_by_relation_set.length > 500
    · obtain ⟨h1, h2⟩ := add_overflow c k f h
      have hfr : ∀ k' ∈ rest, k' ∉ keysOf (AddJoinFeaturesByRelationSet c k f).1 := by
        intro k' hk'
        unfold keysOf
        rw [h1]
        simp only [List.map_cons, List.map_nil, List.mem_singleton]
        intro hEq
        exact hknotr (hEq ▸ hk')
      have ihh := ih (AddJoinFeaturesByRelationSet c k f).1 (n0 + 1) hndr hfr
      rw [h1] at ihh
      have hstep : simStep (c.join_features_by_relation_set.length, n0) = (1, n0 + 1) := by
        unfold simStep
        rw [if_pos h]
      rw [hstep, h2]
      exact ihh
    · obtain ⟨h1, h2⟩ := add_fresh_small c k f h hkf
      have hfr : ∀ k' ∈ rest, k' ∉ keysOf (AddJoinFeaturesByRelationSet c k f).1 := by
        intro k' hk'
        unfold keysOf
        rw [h1, List.map_append]
        simp only [List.mem_append, List.map_cons, List.map_nil, List.mem_singleton]
        rintro (hin | hEq)
        · exact hfresh k' (List.mem_cons_of_mem k hk') hin
        · exact hknotr (hEq ▸ hk')
      have ihh := ih (AddJoinFeaturesByRelationSet c k f).1 n0 hndr hfr
      rw [h1, List.length_append] at ihh
      have hstep : simStep (c.join_features_by_relation_set.length, n0) =
          (c.join_features_by_relation_set.length + 1, n0) := by
        unfold simStep
        rw [if_neg h]
      rw [hstep, h2]
      exact ihh

/-- Splitting an iteration of `simStep` into two runs. -/
theorem simRun_add (m n : Nat) : ∀ p, simRun (m + n) p = simRun n (simRun m p) := by
  induction m with
  | zero =>
    intro p
    rw [Nat.zero_add]
    rfl
  | succ m ih =>
    intro p
    rw [Nat.succ_add]
    show simRun (m + n) (simStep p) = simRun n (simRun (m + 1) p)
    rw [ih (simStep p)]
    rfl

set_option maxRecDepth 4000 in
/-- Evaluating the recurrence on 600 fresh insertions into an empty map:
exactly one clear (at the 502nd insertion) and a final size of 99. -/
theorem simRun600 : simRun 600 (0, 0) = (99, 1) := by
  have ha : (600 : Nat) = 500 + 100 := by decide
  have hb : (500 : Nat) = 400 + 100 := by decide
  have hc : (400 : Nat) = 300 + 100 := by decide
  have hd : (300 : Nat) = 200 + 100 := by decide
  have he : (200 : Nat) = 100 + 100 := by decide
  rw [ha, simRun_add, hb, simRun_add, hc, simRun_add, hd, simRun_add, he, simRun_add]
  have s1 : simRun 100 (0, 0) = (100, 0) := by decide
  have s2 : simRun 100 (100, 0) = (200, 0) := by decide
  have s3 : simRun 100 (200, 0) = (300, 0) := by decide
  have s4 : simRun 100 (300, 0) = (400, 0) := by decide
  have s5 : simRun 100 (400, 0) = (500, 0) := by decide
  have s6 : simRun 100 (500, 0) = (99, 1) := by decide
  rw [s1, s2, s3, s4, s5, s6]

/-- The 600 fingerprints are pairwise distinct. -/
theorem relKeys600_nodup : relKeys600.Nodup := by
  refine List.Nodup.map ?_ (List.nodup_range 600)
  intro a b hab
  have := congrArg (fun s : String => s.data.length) hab
  simpa using this

/-- There are 600 of them. -/
theorem relKeys600_length : relKeys600.length = 600 := by
  simp [relKeys600]

/-- Running the 600 distinct insertions through
`AddJoinFeaturesByRelationSet` from an empty collector: one wholesale clear,
final map size 99. -/
theorem collector_run600 :
    (runRelationSetInserts ⟨[], []⟩ relKeys600 ⟨0⟩).2 = 1 ∧
    (runRelationSetInserts ⟨[], []⟩ relKeys600 ⟨0⟩).1.join_features_by_relation_set.length = 99 := by
  have h := run_inserts_sim ⟨0⟩ relKeys600 ⟨[], []⟩ 0 relKeys600_nodup
    (by intro k hk; simp [keysOf])
  rw [relKeys600_length] at h
  have hsim : simRun 600
      ((⟨[], []⟩ : RLFeatureCollector).join_features_by_relation_set.length, 0) = (99, 1) :=
    simRun600
  rw [hsim] at h
  rw [Prod.mk.injEq] at h
  unfold runRelationSetInserts
  exact ⟨h.2, h.1⟩

end XGDuckDB

namespace XGDuckDB

/-- C1: while the published tree count is at most 1 — or the active booster is
null, or the model is uninitialized — `RLBoostingModel::Predict` returns
exactly 0 for every input feature vector. -/
theorem predict_sentinel_when_not_ready (st : ModelState) (o : PredictOracle)
    (features : List ℚ)
    (h : st.num_trees ≤ 1 ∨ st.active_booster = none ∨ st.initialized = false) :
    (Predict st o features).1 = 0 := by
  unfold Predict
  split
  · rfl
  · split
    · rfl
    · split
      · rfl
      · rename_i hready
        exfalso
        rcases h with h | h | h
        · exact hready (Or.inr (Or.inr h))
        · exact hready (Or.inr (Or.inl h))
        · exact hready (Or.inl (by simp [h]))

/-- Witness for C1 at a concrete state: a freshly bootstrapped model
(`num_trees = 1`) returns 0. -/
theorem predict_sentinel_when_not_ready_witness :
    (Predict
      { initialized := true, active_booster := some 1, training_booster := none,
        num_trees := 1, total_updates := 0, training_num_trees := 0,
        training_total_updates := 0, training_update_calls := 0,
        trees_per_update := 10, max_total_trees := 2000 }
      { shutting_down := false, encode_ok := true, infer := some 3,
        expFn := fun q => q }
      (List.replicate 80 0)).1 = 0 :=
  predict_sentinel_when_not_ready _ _ _ (Or.inl (by decide))

/-- C2: for every model state, every oracle outcome and every input,
`RLBoostingModel::Predict` returns either exactly 0 or a value ≥ 1: a
successful inference clamps the log-cardinality to `[0, ∞)`, exponentiates
and finally clamps the result to be ≥ 1. -/
theorem predict_range (st : ModelState) (o : PredictOracle) (features : List ℚ) :
    (Predict st o features).1 = 0 ∨ 1 ≤ (Predict st o features).1 := by
  unfold Predict
  split
  · exact Or.inl rfl
  · split
    · exact Or.inl rfl
    · split
      · exact Or.inl rfl
      · split
        · exact Or.inl rfl
        · match o.infer with
          | none => exact Or.inl rfl
          | some raw =>
            simp only
            split
            · exact Or.inr le_rfl
            · rename_i hlt
              exact Or.inr (le_of_not_lt hlt)

/-- C3: a feature vector whose length differs from `FEATURE_VECTOR_SIZE`
makes `Predict` return 0 and leave the entire model state unchanged. -/
theorem predict_wrong_width (st : ModelState) (o : PredictOracle)
    (features : List ℚ) (h : features.length ≠ FEATURE_VECTOR_SIZE) :
    (Predict st o features).1 = 0 ∧ (Predict st o features).2 = st := by
  simp only [Predict, h]
  split
  · exact ⟨rfl, rfl⟩
  · simp

/-- Witness for C3: a vector of length `W - 1 = 79` fed to a ready model
returns 0 and leaves `num_trees` (and the whole state) unchanged. -/
theorem predict_wrong_width_witness :
    (Predict
      { initialized := true, active_booster := some 1, training_booster := none,
        num_trees := 5, total_updates := 1, training_num_trees := 5,
        training_total_updates := 1, training_update_calls := 1,
        trees_per_update := 10, max_total_trees := 2000 }
      { shutting_down := false, encode_ok := true, infer := some 3,
        expFn := fun q => q }
      (List.replicate 79 0)).1 = 0 ∧
    (Predict
      { initialized := true, active_booster := some 1, training_booster := none,
        num_trees := 5, total_updates := 1, training_num_trees := 5,
        training_total_updates := 1, training_update_calls := 1,
        trees_per_update := 10, max_total_trees := 2000 }
      { shutting_down := false, encode_ok := true, infer := some 3,
        expFn := fun q => q }
      (List.replicate 79 0)).2 =
      { initialized := true, active_booster := some 1, training_booster := none,
        num_trees := 5, total_updates := 1, training_num_trees := 5,
        training_total_updates := 1, training_update_calls := 1,
        trees_per_update := 10, max_total_trees := 2000 } :=
  predict_wrong_width _ _ _ (by decide)

/-- C4 (counterexample): a successful `UpdateIncremental` on a ready state
(10 samples, all library iterations succeed, `trees_per_update = 10`,
first call since the last swap with `swap_every = 5`) adds `t = 10` trees to
the shadow booster, yet the count read via `GetNumTrees()` stays at 1:
`new_num_trees = old_num_trees + t` fails for the published counter. -/
theorem update_published_count_counterexample :
    treesAdded
        { initialized := true, active_booster := some 7, training_booster := some 8,
          num_trees := 1, total_updates := 0, training_num_trees := 1,
          training_total_updates := 0, training_update_calls := 0,
          trees_per_update := 10, max_total_trees := 2000 }
        { clone := fun b => some (b + 100), dmatrix_create_ok := true,
          dmatrix_label_ok := true, iter_ok := fun _ => true, last_error := "E",
          logFn := fun x => x, fmtDouble := fun _ => "1.000000", swap_every := 5 }
        (List.replicate 10 { features := List.replicate 80 0, actual_cardinality := 5,
                             predicted_cardinality := 5, q_error := 1 }) = 10 ∧
    GetNumTrees
        (updatedState
          { initialized := true, active_booster := some 7, training_booster := some 8,
            num_trees := 1, total_updates := 0, training_num_trees := 1,
            training_total_updates := 0, training_update_calls := 0,
            trees_per_update := 10, max_total_trees := 2000 }
          { clone := fun b => some (b + 100), dmatrix_create_ok := true,
            dmatrix_label_ok := true, iter_ok := fun _ => true, last_error := "E",
            logFn := fun x => x, fmtDouble := fun _ => "1.000000", swap_every := 5 }
          (List.replicate 10 { features := List.replicate 80 0, actual_cardinality := 5,
                               predicted_cardinality := 5, q_error := 1 })) = 1 ∧
    GetNumTrees
        { initialized := true, active_booster := some 7, training_booster := some 8,
          num_trees := 1, total_updates := 0, training_num_trees := 1,
          training_total_updates := 0, training_update_calls := 0,
          trees_per_update := 10, max_total_trees := 2000 } = 1 ∧
    (1 : Nat) ≠ 1 + 10 := by
  decide

/-- C4 (amended): after a successful `UpdateIncremental` (initialized model,
non-null active booster, ≥ 10 samples, DMatrix built, shadow booster
available) that added `t` trees, the shadow counter `training_num_trees`
satisfies `new = old + t` with `t ≤ trees_per_update`; the published
`GetNumTrees()` count changes only when the call triggers a swap
(`swap_every > 0` and the bumped call counter divides it), in which case it
becomes the shadow count. -/
theorem update_incremental_tree_accounting (st : ModelState) (o : TrainOracle)
    (samples : List RLTrainingSample)
    (hinit : st.initialized = true) (hact : st.active_booster.isSome)
    (hn : 10 ≤ samples.length)
    (hc : o.dmatrix_create_ok = true) (hl : o.dmatrix_label_ok = true)
    (hsh : (EnsureTrainingBooster st o).training_booster.isSome) :
    (updatedState st o samples).training_num_trees =
      (EnsureTrainingBooster st o).training_num_trees + treesAdded st o samples ∧
    treesAdded st o samples ≤ st.trees_per_update ∧
    GetNumTrees (updatedState st o samples) =
      (if 0 < o.swap_every ∧ (st.training_update_calls + 1) % o.swap_every = 0
       then (updatedState st o samples).training_num_trees
       else GetNumTrees st) := by
  obtain ⟨tb, htb⟩ := Option.isSome_iff_exists.mp hsh
  obtain ⟨e1, e2, e3, e4, e5, e6, e7⟩ := ensure_fields st o
  have hb := trainStep_bounds (EnsureTrainingBooster st o) o
  unfold treesAdded updatedState
  rw [update_incremental_run st o samples hinit hact hn hc hl]
  unfold trainSection
  rw [htb]
  simp only [GetNumTrees]
  set st1 := EnsureTrainingBooster st o with hst1
  rw [← e3, ← e4, ← e1]
  refine ⟨?_, ?_, ?_⟩
  · split <;> dsimp only <;> omega
  · split <;> dsimp only <;> omega
  · split <;> dsimp only <;> rfl

/-- Witness for C4 (amended) at a concrete ready state: 10 samples, all
iterations succeed, `trees_per_update = 10`. -/
theorem update_incremental_tree_accounting_witness :
    treesAdded
        { initialized := true, active_booster := some 7, training_booster := some 8,
          num_trees := 1, total_updates := 0, training_num_trees := 1,
          training_total_updates := 0, training_update_calls := 0,
          trees_per_update := 10, max_total_trees := 2000 }
        { clone := fun b => some (b + 100), dmatrix_create_ok := true,
          dmatrix_label_ok := true, iter_ok := fun _ => true, last_error := "E",
          logFn := fun x => x, fmtDouble := fun _ => "1.000000", swap_every := 5 }
        (List.replicate 10 { features := List.replicate 80 0, actual_cardinality := 5,
                             predicted_cardinality := 5, q_error := 1 }) ≤ 10 :=
  (update_incremental_tree_accounting
    { initialized := true, active_booster := some 7, training_booster := some 8,
      num_trees := 1, total_updates := 0, training_num_trees := 1,
      training_total_updates := 0, training_update_calls := 0,
      trees_per_update := 10, max_total_trees := 2000 }
    { clone := fun b => some (b + 100), dmatrix_create_ok := true,
      dmatrix_label_ok := true, iter_ok := fun _ => true, last_error := "E",
      logFn := fun x => x, fmtDouble := fun _ => "1.000000", swap_every := 5 }
    (List.replicate 10 { features := List.replicate 80 0, actual_cardinality := 5,
                         predicted_cardinality := 5, q_error := 1 })
    rfl rfl (by decide) rfl rfl (by decide)).2.1

/-- C5 (counterexample): with `trees_per_update = 2`, `swap_every = 5`, a
shadow holding 1 tree and `training_update_calls = 4`, a call in which the
first library iteration succeeds and the second fails leaves the shadow
counter at 2 (the shadow is *not* untouched) and — because the call is the
5th update — publishes the partially trained shadow: `GetNumTrees()` moves
from 1 to 2 and the active booster becomes the shadow handle. -/
theorem update_failure_publishes_partial_counterexample :
    (UpdateIncremental
        { initialized := true, active_booster := some 7, training_booster := some 8,
          num_trees := 1, total_updates := 0, training_num_trees := 1,
          training_total_updates := 0, training_update_calls := 4,
          trees_per_update := 2, max_total_trees := 2000 }
        { clone := fun b => some (b + 100), dmatrix_create_ok := true,
          dmatrix_label_ok := true, iter_ok := fun n => n == 0, last_error := "E",
          logFn := fun x => x, fmtDouble := fun _ => "1.000000", swap_every := 5 }
        (List.replicate 10 { features := List.replicate 80 0, actual_cardinality := 5,
                             predicted_cardinality := 5, q_error := 1 })).1 =
      { initialized := true, active_booster := some 8, training_booster := none,
        num_trees := 2, total_updates := 1, training_num_trees := 2,
        training_total_updates := 1, training_update_calls := 5,
        trees_per_update := 2, max_total_trees := 2000 } ∧
    (UpdateIncremental
        { initialized := true, active_booster := some 7, training_booster := some 8,
          num_trees := 1, total_updates := 0, training_num_trees := 1,
          training_total_updates := 0, training_update_calls := 4,
          trees_per_update := 2, max_total_trees := 2000 }
        { clone := fun b => some (b + 100), dmatrix_create_ok := true,
          dmatrix_label_ok := true, iter_ok := fun n => n == 0, last_error := "E",
          logFn := fun x => x, fmtDouble := fun _ => "1.000000", swap_every := 5 }
        (List.replicate 10 { features := List.replicate 80 0, actual_cardinality := 5,
                             predicted_cardinality := 5, q_error := 1 })).2 =
      [LogEvent.trainIterFailed "E",
       LogEvent.updateSummary 1 10 2 "1.000000"] := by
  constructor <;> decide

/-- C5 (amended): when a library training iteration fails at index `k` of the
current update (all earlier iterations succeeding), the error is logged
exactly once and the remainder of the update is aborted — but the `k` trees
added before the failure stay in the shadow booster
(`training_num_trees = old + k`), and they are published to the active
booster by the regular swap policy: immediately if this call is a swap
call, otherwise the published `GetNumTrees()` is unchanged. -/
theorem update_failure_aborts_keeping_partial_trees (st : ModelState)
    (o : TrainOracle) (samples : List RLTrainingSample) (tb : BoosterHandle) (k : Nat)
    (hinit : st.initialized = true) (hact : st.active_booster.isSome)
    (hn : 10 ≤ samples.length)
    (hc : o.dmatrix_create_ok = true) (hl : o.dmatrix_label_ok = true)
    (htb : (EnsureTrainingBooster st o).training_booster = some tb)
    (hlt : (EnsureTrainingBooster st o).training_num_trees < st.max_total_trees)
    (hk : k < min (st.max_total_trees - (EnsureTrainingBooster st o).training_num_trees)
      st.trees_per_update)
    (hok : ∀ i, i < k →
      o.iter_ok ((EnsureTrainingBooster st o).training_total_updates *
        st.trees_per_update + i) = true)
    (hfail : o.iter_ok ((EnsureTrainingBooster st o).training_total_updates *
      st.trees_per_update + k) = false) :
    (updatedState st o samples).training_num_trees =
      (EnsureTrainingBooster st o).training_num_trees + k ∧
    ((UpdateIncremental st o samples).2.countP (fun e => isTrainIterFailed e)) = 1 ∧
    GetNumTrees (updatedState st o samples) =
      (if 0 < o.swap_every ∧ (st.training_update_calls + 1) % o.swap_every = 0
       then (EnsureTrainingBooster st o).training_num_trees + k
       else GetNumTrees st) := by
  obtain ⟨e1, e2, e3, e4, e5, e6, e7⟩ := ensure_fields st o
  have hstep := trainStep_fail (EnsureTrainingBooster st o) o k
    (by rw [e5]; exact hlt) (by rw [e5, e4]; exact hk)
    (by rw [e4]; exact hok) (by rw [e4]; exact hfail)
  unfold updatedState
  rw [update_incremental_run st o samples hinit hact hn hc hl]
  unfold trainSection
  rw [htb]
  simp only [GetNumTrees]
  set st1 := EnsureTrainingBooster st o with hst1
  rw [← e3, ← e1]
  rw [hstep]
  refine ⟨?_, ?_, ?_⟩
  · split <;> rfl
  · rw [List.countP_append]
    split <;> simp [isTrainIterFailed, isUpdateSummary]
  · split <;> rfl

/-- Witness for C5 (amended): the failure-at-iteration-1 scenario with
`trees_per_update = 3` and no swap due: the shadow keeps the one pre-failure
tree. -/
theorem update_failure_aborts_keeping_partial_trees_witness :
    (updatedState
        { initialized := true, active_booster := some 7, training_booster := some 8,
          num_trees := 1, total_updates := 0, training_num_trees := 1,
          training_total_updates := 0, training_update_calls := 0,
          trees_per_update := 3, max_total_trees := 2000 }
        { clone := fun b => some (b + 100), dmatrix_create_ok := true,
          dmatrix_label_ok := true, iter_ok := fun n => n == 0, last_error := "E",
          logFn := fun x => x, fmtDouble := fun _ => "1.000000", swap_every := 5 }
        (List.replicate 10 { features := List.replicate 80 0, actual_cardinality := 5,
                             predicted_cardinality := 5, q_error := 1 })).training_num_trees =
      (EnsureTrainingBooster
        { initialized := true, active_booster := some 7, training_booster := some 8,
          num_trees := 1, total_updates := 0, training_num_trees := 1,
          training_total_updates := 0, training_update_calls := 0,
          trees_per_update := 3, max_total_trees := 2000 }
        { clone := fun b => some (b + 100), dmatrix_create_ok := true,
          dmatrix_label_ok := true, iter_ok := fun n => n == 0, last_error := "E",
          logFn := fun x => x, fmtDouble := fun _ => "1.000000", swap_every := 5 }).training_num_trees + 1 :=
  (update_failure_aborts_keeping_partial_trees
    { initialized := true, active_booster := some 7, training_booster := some 8,
      num_trees := 1, total_updates := 0, training_num_trees := 1,
      training_total_updates := 0, training_update_calls := 0,
      trees_per_update := 3, max_total_trees := 2000 }
    { clone := fun b => some (b + 100), dmatrix_create_ok := true,
      dmatrix_label_ok := true, iter_ok := fun n => n == 0, last_error := "E",
      logFn := fun x => x, fmtDouble := fun _ => "1.000000", swap_every := 5 }
    (List.replicate 10 { features := List.replicate 80 0, actual_cardinality := 5,
                         predicted_cardinality := 5, q_error := 1 })
    8 1 rfl rfl (by decide) rfl rfl (by decide) (by decide) (by decide)
    (by decide) (by decide)).1

/-- C6 (counterexample): an `UpdateIncremental` call that does *not* publish
a swap (`training_update_calls` goes 0 → 1 with `swap_every = 5`; the active
booster and the published counters are untouched) still emits exactly the
`"[RL BOOSTING] Incremental update #…"` summary line. -/
theorem update_log_without_swap_counterexample :
    (UpdateIncremental
        { initialized := true, active_booster := some 7, training_booster := some 8,
          num_trees := 1, total_updates := 0, training_num_trees := 1,
          training_total_updates := 0, training_update_calls := 0,
          trees_per_update := 3, max_total_trees := 2000 }
        { clone := fun b => some (b + 100), dmatrix_create_ok := true,
          dmatrix_label_ok := true, iter_ok := fun _ => true, last_error := "E",
          logFn := fun x => x, fmtDouble := fun _ => "1.000000", swap_every := 5 }
        (List.replicate 10 { features := List.replicate 80 0, actual_cardinality := 5,
                             predicted_cardinality := 5, q_error := 1 })).2 =
      [LogEvent.updateSummary 1 10 4 "1.000000"] ∧
    (UpdateIncremental
        { initialized := true, active_booster := some 7, training_booster := some 8,
          num_trees := 1, total_updates := 0, training_num_trees := 1,
          training_total_updates := 0, training_update_calls := 0,
          trees_per_update := 3, max_total_trees := 2000 }
        { clone := fun b => some (b + 100), dmatrix_create_ok := true,
          dmatrix_label_ok := true, iter_ok := fun _ => true, last_error := "E",
          logFn := fun x => x, fmtDouble := fun _ => "1.000000", swap_every := 5 }
        (List.replicate 10 { features := List.replicate 80 0, actual_cardinality := 5,
                             predicted_cardinality := 5, q_error := 1 })).1.active_booster = some 7 ∧
    (UpdateIncremental
        { initialized := true, active_booster := some 7, training_booster := some 8,
          num_trees := 1, total_updates := 0, training_num_trees := 1,
          training_total_updates := 0, training_update_calls := 0,
          trees_per_update := 3, max_total_trees := 2000 }
        { clone := fun b => some (b + 100), dmatrix_create_ok := true,
          dmatrix_label_ok := true, iter_ok := fun _ => true, last_error := "E",
          logFn := fun x => x, fmtDouble := fun _ => "1.000000", swap_every := 5 }
        (List.replicate 10 { features := List.replicate 80 0, actual_cardinality := 5,
                             predicted_cardinality := 5, q_error := 1 })).1.num_trees = 1 := by
  refine ⟨?_, ?_, ?_⟩ <;> decide

/-- C6 (amended): the summary line
`"[RL BOOSTING] Incremental update #<u>: trained on <n> samples, total
trees=<T>, avg Q-error=<q>"` is emitted exactly once per `UpdateIncremental`
call that reaches the training section (initialized model, non-null active
booster, ≥ 10 samples, DMatrix created, shadow booster available) — whether
or not the call publishes a swap — and never by a call that fails those
preconditions. -/
theorem update_incremental_summary_per_call (st : ModelState) (o : TrainOracle)
    (samples : List RLTrainingSample) :
    ((UpdateIncremental st o samples).2.countP (fun e => isUpdateSummary e)) =
      (if st.initialized = true ∧ st.active_booster.isSome = true ∧
          10 ≤ samples.length ∧ o.dmatrix_create_ok = true ∧
          o.dmatrix_label_ok = true ∧
          (EnsureTrainingBooster st o).training_booster.isSome = true
       then 1 else 0) := by
  by_cases h1 : st.initialized = true
  case neg =>
    rw [if_neg (by tauto)]
    unfold UpdateIncremental
    rw [if_pos (Or.inl (by simpa using h1))]
    simp
  case pos =>
  by_cases h2 : st.active_booster.isSome = true
  case neg =>
    rw [if_neg (by tauto)]
    unfold UpdateIncremental
    rw [if_pos (Or.inr (by simpa using h2))]
    simp
  case pos =>
  by_cases h3 : 10 ≤ samples.length
  case neg =>
    rw [if_neg (by tauto)]
    unfold UpdateIncremental
    rw [if_neg ?h3a, if_pos (by omega)]
    · simp
    · rintro (h | h)
      · rw [h1] at h; cases h
      · rw [h] at h2; cases h2
  case pos =>
  have hne : samples.isEmpty = false := by
    cases samples with
    | nil => simp at h3
    | cons a l => rfl
  by_cases h4 : o.dmatrix_create_ok = true
  case neg =>
    rw [if_neg (by tauto)]
    unfold UpdateIncremental
    rw [if_neg ?h4a, if_neg (by omega)]
    · simp only [CreateDMatrix, hne, Bool.false_eq_true, if_false, h4,
        not_false_iff, if_pos]
      simp [isUpdateSummary]
    · rintro (h | h)
      · rw [h1] at h; cases h
      · rw [h] at h2; cases h2
  case pos =>
  by_cases h5 : o.dmatrix_label_ok = true
  case neg =>
    rw [if_neg (by tauto)]
    unfold UpdateIncremental
    rw [if_neg ?h5a, if_neg (by omega)]
    · simp only [CreateDMatrix, hne, Bool.false_eq_true, if_false, h4,
        not_true, if_neg, h5, not_false_iff, if_pos]
      simp [isUpdateSummary]
    · rintro (h | h)
      · rw [h1] at h; cases h
      · rw [h] at h2; cases h2
  case pos =>
  rw [update_incremental_run st o samples h1 h2 h3 h4 h5]
  by_cases h6 : (EnsureTrainingBooster st o).training_booster.isSome = true
  case neg =>
    rw [if_neg (by tauto)]
    unfold trainSection
    rcases hnone : (EnsureTrainingBooster st o).training_booster with _ | tb
    · simp
    · rw [hnone] at h6; simp at h6
  case pos =>
    rw [if_pos (by tauto)]
    obtain ⟨tb, htb⟩ := Option.isSome_iff_exists.mp h6
    unfold trainSection
    rw [htb]
    have hns := trainStep_no_summary (EnsureTrainingBooster st o) o
    dsimp only
    rw [List.countP_append, hns]
    simp [isUpdateSummary, List.countP_cons]

/-- C7 (counterexample): pushing 600 distinct join relation-set fingerprints
into an initially empty collector triggers exactly one wholesale clear, but
the map's size after the 600th insert is 99, not 1: the clear fires at the
502nd insertion (as soon as the size exceeds 500) and the map then grows
again for the remaining 98 insertions. -/
theorem collector_600_inserts_size_counterexample :
    (runRelationSetInserts ⟨[], []⟩ relKeys600 ⟨0⟩).2 = 1 ∧
    (runRelationSetInserts ⟨[], []⟩ relKeys600 ⟨0⟩).1.join_features_by_relation_set.length = 99 ∧
    ¬ (runRelationSetInserts ⟨[], []⟩ relKeys600 ⟨0⟩).1.join_features_by_relation_set.length = 1 := by
  refine ⟨collector_run600.1, collector_run600.2, ?_⟩
  rw [collector_run600.2]
  decide

/-- C7 (amended): before any insertion, if the relation-set map's size
exceeds the bound 500 it is cleared in full — never partially — so the map
after the insertion holds exactly the one new entry; consequently 600
insertions of distinct fingerprints into an initially empty map trigger
exactly one wholesale clear, and the map's size after the 600th insert
is 99 (the clear fires at the 502nd insert). -/
theorem collector_overflow_wholesale_clear :
    (∀ (c : RLFeatureCollector) (k : String) (f : JoinFeatures),
        c.join_features_by_relation_set.length > 500 →
        (AddJoinFeaturesByRelationSet c k f).1.join_features_by_relation_set = [(k, f)] ∧
        (AddJoinFeaturesByRelationSet c k f).2 = true) ∧
    (runRelationSetInserts ⟨[], []⟩ relKeys600 ⟨0⟩).2 = 1 ∧
    (runRelationSetInserts ⟨[], []⟩ relKeys600 ⟨0⟩).1.join_features_by_relation_set.length = 99 :=
  ⟨add_overflow, collector_run600⟩

/-- Witness for C7 (amended): a collector whose relation-set map holds 501
entries is cleared wholesale by the next insertion, leaving exactly the new
entry. -/
theorem collector_overflow_wholesale_clear_witness :
    (AddJoinFeaturesByRelationSet
        ⟨(List.range 501).map (fun i => (String.mk (List.replicate i 'a'),
            ({ estimated_cardinality := 0 } : JoinFeatures))), []⟩
        "z" { estimated_cardinality := 0 }).1.join_features_by_relation_set =
      [("z", { estimated_cardinality := 0 })] :=
  (collector_overflow_wholesale_clear.1
    ⟨(List.range 501).map (fun i => (String.mk (List.replicate i 'a'),
        ({ estimated_cardinality := 0 } : JoinFeatures))), []⟩
    "z" { estimated_cardinality := 0 }
    (by simp)).1

/-- C8 (counterexample): for an operator whose engine estimate is 0, a
planning prediction of 0 does not leave `estimated_cardinality` unchanged:
`ApplyToOperator` sets it to `max(0, 1) = 1`. -/
theorem apply_to_operator_zero_estimate_counterexample :
    (ApplyToOperator
        { estimated_cardinality := 0, has_estimated_cardinality := true,
          duckdb_estimated_cardinality := 0,
          has_duckdb_estimated_cardinality := false } 0).estimated_cardinality = 1 ∧
    ({ estimated_cardinality := 0, has_estimated_cardinality := true,
       duckdb_estimated_cardinality := 0,
       has_duckdb_estimated_cardinality := false } : LogicalOperator).estimated_cardinality
      = 0 := by
  constructor <;> rfl

/-- C8 (amended): for every logical operator visited by the optimizer hook,
if `PredictPlanningCardinality` returns a value > 0 the operator's
`estimated_cardinality` is replaced with `max(prediction, 1)`; otherwise
(prediction = 0) it is set to `max(original estimate, 1)` — unchanged
whenever the original estimate was at least 1, but raised to 1 when it
was 0. -/
theorem apply_to_operator_estimate (op : LogicalOperator) (rl_pred : Nat) :
    (0 < rl_pred →
      (ApplyToOperator op rl_pred).estimated_cardinality = max rl_pred 1) ∧
    (rl_pred = 0 →
      (ApplyToOperator op rl_pred).estimated_cardinality =
        max op.estimated_cardinality 1) := by
  unfold ApplyToOperator
  constructor
  · intro hp
    split <;> simp [hp]
  · intro hp
    subst hp
    split <;> simp

/-- Witness for C8 (amended): a prediction of 7 on an operator with engine
estimate 42 replaces the estimate with `max(7, 1) = 7`. -/
theorem apply_to_operator_estimate_witness :
    (ApplyToOperator
        { estimated_cardinality := 42, has_estimated_cardinality := true,
          duckdb_estimated_cardinality := 0,
          has_duckdb_estimated_cardinality := false } 7).estimated_cardinality =
      max 7 1 :=
  (apply_to_operator_estimate
    { estimated_cardinality := 42, has_estimated_cardinality := true,
      duckdb_estimated_cardinality := 0,
      has_duckdb_estimated_cardinality := false } 7).1 (by decide)

/-- C10: with the interface enabled (the constructor sets `enabled = true`
and nothing ever clears it), `GetCardinalityEstimate` on any features record
whose `join_type` is empty returns the engine's built-in
`features.estimated_cardinality` unchanged and never consults the model;
only join operators can receive a model-derived override here. -/
theorem get_cardinality_estimate_non_join (en : Bool)
    (ts : InterfaceThreadState) (query_id : Option Nat)
    (f : OperatorFeatures) (model_prediction : ℚ)
    (hen : en = true) (hj : f.join_type = "") :
    (GetCardinalityEstimate en ts query_id f model_prediction).1 =
      f.estimated_cardinality ∧
    (GetCardinalityEstimate en ts query_id f model_prediction).2.2 = false := by
  subst hen
  unfold GetCardinalityEstimate
  rw [if_neg (by simp [PHYSICAL_RL_ENABLED])]
  have hjoin : ¬ f.join_type ≠ "" := by simpa using hj
  rw [if_pos hjoin]
  exact ⟨rfl, rfl⟩

/-- Witness for C10: a table-scan features record (empty `join_type`) with
engine estimate 123 passes through unchanged, without consulting the model,
on a fresh thread state. -/
theorem get_cardinality_estimate_non_join_witness :
    (GetCardinalityEstimate true
        { physical_prediction_cache := [], cached_query_id := none,
          physical_prediction_count := 0, physical_cap_logged := false }
        (some 1)
        { operator_type := "LOGICAL_GET", estimated_cardinality := 123,
          table_name := "t", filter_types := [], comparison_types := [],
          join_type := "", join_relation_set := "", comparison_type_join := "",
          num_group_by_columns := 0, num_aggregate_functions := 0,
          num_grouping_sets := 0 } (5 : ℚ)).1 = 123 ∧
    (GetCardinalityEstimate true
        { physical_prediction_cache := [], cached_query_id := none,
          physical_prediction_count := 0, physical_cap_logged := false }
        (some 1)
        { operator_type := "LOGICAL_GET", estimated_cardinality := 123,
          table_name := "t", filter_types := [], comparison_types := [],
          join_type := "", join_relation_set := "", comparison_type_join := "",
          num_group_by_columns := 0, num_aggregate_functions := 0,
          num_grouping_sets := 0 } (5 : ℚ)).2.2 = false :=
  get_cardinality_estimate_non_join true
    { physical_prediction_cache := [], cached_query_id := none,
      physical_prediction_count := 0, physical_cap_logged := false }
    (some 1)
    { operator_type := "LOGICAL_GET", estimated_cardinality := 123,
      table_name := "t", filter_types := [], comparison_types := [],
      join_type := "", join_relation_set := "", comparison_type_join := "",
      num_group_by_columns := 0, num_aggregate_functions := 0,
      num_grouping_sets := 0 } (5 : ℚ) rfl rfl

end XGDuckDB
